import Mathlib

/-!
Shallow embedding of the workflow-automation engine of this repository
(the node-graph store and mutation engine in
`src/backend/src/baserow/contrib/automation/nodes/handler.py`,
the run controller in
`src/backend/src/baserow/contrib/automation/workflows/handler.py`,
and the permission/service layer in
`src/backend/src/baserow/contrib/automation/nodes/service.py`),
together with proofs of the testable properties stated in the
specification.

The database tables are modelled as Lean lists of records; Django
queryset filters become list filters, `bulk_update` becomes a map over
the list guarded by primary-key membership, and exceptions become
`Option`/sum-like results.  Timestamps are integers.
-/

namespace Automation

/-- Run-history status (`HistoryStatusChoices` in
`history/constants.py`): Started / Success / Error / Disabled. -/
inductive HistoryStatus where
  | started
  | success
  | error
  | disabled
deriving DecidableEq, Repr

/-- Workflow state (`WorkflowState` in `workflows/constants.py`):
Draft / Live / Disabled. -/
inductive WorkflowState where
  | draft
  | live
  | disabled
deriving DecidableEq, Repr

/-- `AutomationWorkflowHandler._check_too_many_errors`
(`workflows/handler.py` lines 739-768), expressed on the workflow's
history statuses listed most-recent-first (the queryset orders by
`-started_on`).  The code slices the first `max_errors + 1` statuses,
drops a leading `STARTED` entry, admits when fewer than `max_errors`
remain, and denies (raises `AutomationWorkflowTooManyErrors`) when all
remaining statuses are `ERROR`.  Returns `true` when the run is denied.
`dropLeadingStarted` is the `statuses[1:]` step guarded by
`statuses and statuses[0] == HistoryStatusChoices.STARTED`. -/
def dropLeadingStarted : List HistoryStatus → List HistoryStatus
  | HistoryStatus.started :: rest => rest
  | other => other

/-- The denial test of `_check_too_many_errors`, on the slice already
described at `dropLeadingStarted`. -/
def checkTooManyErrors (maxErrors : Nat) (statuses : List HistoryStatus) :
    Bool :=
  let trimmed := dropLeadingStarted (statuses.take (maxErrors + 1))
  if trimmed.length < maxErrors then false
  else trimmed.all (fun s => s == HistoryStatus.error)

/-- The circuit-breaker denial condition as the specification words it
(spec section 4.4 step 2): after excluding a leading "in progress"
(Started) entry, the run-history contains at least `N` entries and the
`N` most recent of them are all `Error`.  This definition follows the
spec's words, to be compared with `checkTooManyErrors`, which follows
the source. -/
def specCircuitBreakerDenies (maxErrors : Nat)
    (statuses : List HistoryStatus) : Bool :=
  let trimmed := dropLeadingStarted statuses
  decide (maxErrors ≤ trimmed.length) &&
    (trimmed.take maxErrors).all (fun s => s == HistoryStatus.error)

/-- The circuit-breaker denial condition the code actually implements,
worded spec-style (the amendment of the claim): after excluding a
leading Started entry from the `N + 1` most recent history entries, at
least `N` entries must remain and all of the remaining (up to `N + 1`)
entries must be Error. -/
def specCircuitBreakerDeniesAmended (maxErrors : Nat)
    (statuses : List HistoryStatus) : Bool :=
  let trimmed := dropLeadingStarted (statuses.take (maxErrors + 1))
  decide (maxErrors ≤ trimmed.length) &&
    trimmed.all (fun s => s == HistoryStatus.error)

/-- `AutomationWorkflowHandler._check_is_rate_limited_value`
(`workflows/handler.py` lines 712-737).  Given the cached list of
recent run timestamps for a workflow, keeps the timestamps strictly
inside the sliding window of `expirySeconds` before `now`; if at least
`maxRuns` remain the run is rate limited (the code raises
`AutomationWorkflowRateLimited`), modelled as `none`; otherwise `now`
is appended to the pruned window and the new window is returned. -/
def checkIsRateLimitedValue (expirySeconds maxRuns : Nat) (now : Int)
    (data : List Int) : Option (List Int) :=
  let startWindow := now - (expirySeconds : Int)
  let runsInWindow := data.filter (fun t => startWindow < t)
  if maxRuns ≤ runsInWindow.length then none
  else some (runsInWindow ++ [now])

/-- A workflow row, restricted to the fields the run controller reads:
`state`, the temporary test/simulate flags, and
`automation.published_from_id` (the id of the draft workflow this
published copy was produced from, `None` for a draft). -/
structure Workflow where
  id : Nat
  state : WorkflowState
  allowTestRunUntil : Option Int
  simulateUntilNodeId : Option Nat
  publishedFromId : Option Nat
deriving DecidableEq, Repr

/-- `AutomationWorkflowHandler.get_original_workflow`
(`workflows/handler.py` lines 124-143): the draft the published copy
points back to via `automation.published_from`, or the workflow itself
when it is not a published copy.  Here reduced to the id. -/
def getOriginalWorkflowId (w : Workflow) : Nat :=
  match w.publishedFromId with
  | some originalId => originalId
  | none => w.id

/-- `AutomationWorkflowHandler.reset_workflow_temporary_states`
(`workflows/handler.py` lines 810-827): clears `allow_test_run_until`
and `simulate_until_node`. -/
def resetWorkflowTemporaryStates (w : Workflow) : Workflow :=
  { w with allowTestRunUntil := none, simulateUntilNodeId := none }

/-- One run-history row (`AutomationWorkflowHistory`). -/
structure HistoryEntry where
  workflowId : Nat
  startedOn : Int
  completedOn : Option Int
  status : HistoryStatus
  message : String
  isTestRun : Bool
deriving DecidableEq, Repr

/-- The run controller's persistent state: the workflow rows, the
run-history rows, and the global rate-limit cache keyed by workflow id
(`WORKFLOW_RATE_LIMIT_CACHE_PREFIX`), modelled as a total map that is
the empty list on absent keys (`default_value=lambda: []`). -/
structure EngineState where
  workflows : List Workflow
  history : List HistoryEntry
  rateWindows : Nat → List Int

/-- Look a workflow up by id (`get_workflow`). -/
def findWorkflow (ws : List Workflow) (wid : Nat) : Option Workflow :=
  ws.find? (fun w => w.id == wid)

/-- The rate-limit cache read: the stored window for a workflow id
(`_check_is_rate_limited`, `workflows/handler.py` lines 699-710). -/
def getRateWindow (windows : Nat → List Int) (wid : Nat) : List Int :=
  windows wid

/-- Store a workflow's rate window back into the cache. -/
def setRateWindow (windows : Nat → List Int) (wid : Nat)
    (data : List Int) : Nat → List Int :=
  fun k => if k == wid then data else windows k

/-- Insert a history entry into a list sorted by `started_on`
descending (the queryset's `order_by("-started_on")`); stable for
equal timestamps. -/
def insertByStartedOnDesc (e : HistoryEntry) :
    List HistoryEntry → List HistoryEntry
  | [] => [e]
  | x :: xs =>
    if e.startedOn ≤ x.startedOn then x :: insertByStartedOnDesc e xs
    else e :: x :: xs

/-- The workflow's history statuses ordered by `started_on` descending,
as read by `_check_too_many_errors`
(`AutomationWorkflowHistory.objects.filter(workflow=workflow)
.order_by("-started_on")`). -/
def historyStatusesDesc (history : List HistoryEntry) (wid : Nat) :
    List HistoryStatus :=
  (((history.filter (fun e => e.workflowId == wid)).foldr
      insertByStartedOnDesc []).map (fun e => e.status))

/-- Why `before_run` denies, when it denies: the two admission errors
(`AutomationWorkflowTooManyErrors`, `AutomationWorkflowRateLimited`). -/
inductive DenyReason where
  | tooManyErrors
  | rateLimited
deriving DecidableEq, Repr

/-- `AutomationWorkflowHandler.before_run`
(`workflows/handler.py` lines 683-694) applied to a workflow id: reset
the temporary states, then the circuit breaker, then the rate limit,
in that order.  The state reset persists even when a later check
denies (each check saves independently); a denial by the circuit
breaker leaves the rate window untouched, and a denial by the rate
limiter leaves the cached window untouched (the raising update stores
nothing). -/
def beforeRun (maxErrors expirySeconds maxRuns : Nat) (now : Int)
    (st : EngineState) (wid : Nat) : EngineState × Option DenyReason :=
  let st1 : EngineState :=
    { st with
      workflows := st.workflows.map (fun w =>
        if w.id == wid then resetWorkflowTemporaryStates w else w) }
  if checkTooManyErrors maxErrors (historyStatusesDesc st1.history wid) then
    (st1, some DenyReason.tooManyErrors)
  else
    match checkIsRateLimitedValue expirySeconds maxRuns now
        (getRateWindow st1.rateWindows wid) with
    | none => (st1, some DenyReason.rateLimited)
    | some newWindow =>
      ({ st1 with rateWindows := setRateWindow st1.rateWindows wid newWindow },
        none)

/-- `AutomationWorkflowHandler.disable_workflow`
(`workflows/handler.py` lines 770-781): set the provided workflow and
its original workflow (if distinct) to `Disabled`. -/
def disableWorkflow (ws : List Workflow) (w : Workflow) : List Workflow :=
  ws.map (fun x =>
    if x.id == w.id || x.id == getOriginalWorkflowId w then
      { x with state := WorkflowState.disabled }
    else x)

/-- The outcome of the opaque recursive dispatch from the trigger, as
observed by `start_workflow`'s exception handling: success, a
dispatch-domain failure (`DispatchException` /
`AutomationWorkflowBeforeRunError` subclasses raised below), or an
unexpected exception. -/
inductive DispatchOutcome where
  | success
  | dispatchError (msg : String)
  | unexpectedError (msg : String)
deriving DecidableEq, Repr

/-- Replace the last element of a list. -/
def updateLast (f : α → α) : List α → List α
  | [] => []
  | [x] => [f x]
  | x :: y :: xs => x :: updateLast f (y :: xs)

/-- `AutomationHistoryHandler.create_workflow_history`.
Modelled from the spec: the history handler is not under `src/`; spec
section 4.4 says that on admission "a history entry is opened (status
Started)", and `start_workflow` passes `started_on` and `is_test_run`.
The new entry has no completion time and an empty message. -/
def createWorkflowHistory (wid : Nat) (startedOn : Int)
    (isTestRun : Bool) : HistoryEntry :=
  { workflowId := wid, startedOn := startedOn, completedOn := none,
    status := HistoryStatus.started, message := "", isTestRun := isTestRun }

/-- `AutomationWorkflowHandler.start_workflow`
(`workflows/handler.py` lines 896-959) as a state transformer.  The
opaque trigger dispatch is a parameter (`outcome`); `startTime` is the
clock at entry and `endTime` the clock at the `finally` block.  Returns
`none` when the workflow id does not exist.  Control flow of the
source: resolve the original workflow; classify the run as a test run
iff the original equals the executing workflow; unless this is a
simulation, open a Started history entry on the original workflow;
run `before_run` on the original workflow; dispatch; translate
`AutomationWorkflowTooManyErrors` to status Disabled (also disabling
the executing workflow and its original), any other
dispatch/before-run failure or unexpected exception to status Error,
success to status Success; and finally, unless this is a simulation,
close the history entry with the completion time, message and status. -/
def startWorkflow (maxErrors expirySeconds maxRuns : Nat)
    (st : EngineState) (wid : Nat) (simulate : Bool)
    (outcome : DispatchOutcome) (startTime endTime : Int) :
    Option EngineState :=
  match findWorkflow st.workflows wid with
  | none => none
  | some w =>
    let originalId := getOriginalWorkflowId w
    let isTestRun := originalId == wid
    let st0 : EngineState :=
      if simulate then st
      else { st with
        history :=
          st.history ++ [createWorkflowHistory originalId startTime isTestRun] }
    let result := beforeRun maxErrors expirySeconds maxRuns startTime st0
      originalId
    let st1 := result.fst
    let closing : HistoryStatus × String × EngineState :=
      match result.snd with
      | some DenyReason.tooManyErrors =>
        (HistoryStatus.disabled,
          "The workflow was disabled due to too many consecutive errors.",
          { st1 with workflows := disableWorkflow st1.workflows w })
      | some DenyReason.rateLimited =>
        (HistoryStatus.error,
          "The workflow was rate limited due to too many recent runs.",
          st1)
      | none =>
        match outcome with
        | DispatchOutcome.success => (HistoryStatus.success, "", st1)
        | DispatchOutcome.dispatchError m => (HistoryStatus.error, m, st1)
        | DispatchOutcome.unexpectedError m =>
          (HistoryStatus.error,
            "Unexpected error while running workflow. Error: " ++ m, st1)
    let st2 := closing.snd.snd
    if simulate then some st2
    else
      some { st2 with
        history := updateLast (fun e =>
          { e with completedOn := some endTime,
                   message := closing.snd.fst,
                   status := closing.fst }) st2.history }

/-- One automation-node row, restricted to the fields the graph engine
reads and writes: the id, the backward pointer `previous_node_id`, the
branch key `previous_node_output` (empty string for the default
continuation), the display `order`, and whether the node's type is a
trigger (`AutomationNodeType.is_workflow_trigger`). -/
structure NodeRec where
  id : Nat
  prev : Option Nat
  out : String
  order : Int
  isTrigger : Bool
deriving DecidableEq, Repr

/-- A workflow's node table. -/
abbrev NodeDb := List NodeRec

/-- Look a node up by id (`get_node`,
`nodes/handler.py` lines 122-145). -/
def getNode (db : NodeDb) (i : Nat) : Option NodeRec :=
  db.find? (fun n => n.id == i)

/-- `AutomationNodeHandler.get_next_nodes`
(`nodes/handler.py` lines 95-120), which is also the behaviour of the
model method `AutomationNode.get_next_nodes` used by `move_node` and
`duplicate_node` (the model itself is not under `src/`; spec section
4.1 `successorsOf` describes the same filter): the nodes whose
`previous_node_id` matches, further filtered by `previous_node_output`
when an output uid is given. -/
def getNextNodes (db : NodeDb) (nodeId : Option Nat)
    (outputUid : Option String) : NodeDb :=
  db.filter (fun n =>
    n.prev == nodeId &&
      match outputUid with
      | none => true
      | some u => n.out == u)

/-- `AutomationNodeHandler.update_previous_node`
(`nodes/handler.py` lines 147-173): relink the listed nodes to the new
previous node, setting `previous_node_output` too only when one is
given (`bulk_update` by primary key). -/
def updatePreviousNode (db : NodeDb) (newPrevId : Option Nat)
    (targets : List Nat) (newOut : Option String) : NodeDb :=
  db.map (fun n =>
    if targets.contains n.id then
      { n with
        prev := newPrevId,
        out := match newOut with
               | some o => o
               | none => n.out }
    else n)

/-- `AutomationNode.get_last_order`.
Modelled from the spec: the order helpers live on the model, which is
not under `src/`; spec sections 3 and 4.2 say `order` is a dense
display-order value and a node created without `before` is "appended
last among siblings".  Modelled as one more than the maximum existing
order. -/
def getLastOrder (db : NodeDb) : Int :=
  (db.map (fun n => n.order)).foldr max 0 + 1

/-- `AutomationNode.get_unique_order_before_node`.
Modelled from the spec: not under `src/`; spec section 4.2 says the
order is "computed to sort strictly before `before`".  Modelled as one
less than `before`'s order. -/
def getUniqueOrderBeforeNode (before : NodeRec) : Int :=
  before.order - 1

/-- `AutomationWorkflow.get_last_node_id`.
Modelled from the spec: not under `src/`; the comment at its call site
in `create_node` says it returns "the last node ID of the workflow,
which is the last node in the hierarchy".  Modelled as the id of the
node greatest in display order, `none` for an empty workflow. -/
def getLastNodeId (db : NodeDb) : Option Nat :=
  match db.foldl
      (fun acc n =>
        match acc with
        | none => some n
        | some m => if m.order ≤ n.order then some n else some m)
      none with
  | some n => some n.id
  | none => none

/-- `AutomationNodeHandler.create_node`
(`nodes/handler.py` lines 201-282), for a call that passes no explicit
`previous_node_id`/`previous_node_output`/`order`/parent in `kwargs`
(the service layer's create path).  With a `before` node: the new node
reuses `before`'s non-empty `previous_node_output`, takes `before`'s
`previous_node_id`, and is ordered just before `before`; the nodes
whose previous node is `before`'s anchor (its `previous_node_id`, or
`before` itself when that is null) with `before`'s output are
relinked to the new node; finally, a non-empty
`before.previous_node_output` is cleared to the empty string.  Without
`before`: appended after the workflow's last node.  Returns `none`
when `before` does not resolve.  `newId` is the id the database
assigns to the inserted row. -/
def createNode (db : NodeDb) (newId : Nat) (beforeId : Option Nat) :
    Option NodeDb :=
  match beforeId with
  | some bId =>
    match getNode db bId with
    | none => none
    | some b =>
      let newOut := if b.out ≠ "" then b.out else ""
      let anchorPrev : Option Nat :=
        match b.prev with
        | none => some bId
        | some p => some p
      let toUpdate :=
        (db.filter (fun n => n.prev == anchorPrev && n.out == b.out)).map
          (fun n => n.id)
      let newNode : NodeRec :=
        { id := newId, prev := b.prev, out := newOut,
          order := getUniqueOrderBeforeNode b, isTrigger := false }
      let db1 := db ++ [newNode]
      let db2 := updatePreviousNode db1 (some newId) toUpdate none
      let db3 :=
        if b.out ≠ "" then
          db2.map (fun n => if n.id == bId then { n with out := "" } else n)
        else db2
      some db3
  | none =>
    let newNode : NodeRec :=
      { id := newId, prev := getLastNodeId db, out := "",
        order := getLastOrder db, isTrigger := false }
    some (db ++ [newNode])

/-- `AutomationNodeHandler.duplicate_node`
(`nodes/handler.py` lines 343-402): export the source node, collect
the source's next nodes on the empty output, import the copy with the
last order, empty output and the source as its previous node, then
relink the collected next nodes to the copy. -/
def duplicateNode (db : NodeDb) (srcId newId : Nat) : Option NodeDb :=
  match getNode db srcId with
  | none => none
  | some src =>
    let srcNextNodes :=
      (getNextNodes db (some srcId) (some "")).map (fun n => n.id)
    let dup : NodeRec :=
      { id := newId, prev := some srcId, out := "",
        order := getLastOrder db, isTrigger := src.isTrigger }
    let db1 := db ++ [dup]
    some (updatePreviousNode db1 (some newId) srcNextNodes none)

/-- `AutomationNodeHandler.move_node`
(`nodes/handler.py` lines 404-510): relink the moved node's next nodes
(all branches) to its current previous node and output; collect the
destination's next nodes (on the given output when one is supplied,
else on all branches); repoint the moved node after the destination
with the given output or the empty string; and relink the collected
destination next nodes to the moved node, with the empty output when a
non-empty output was supplied and their own outputs otherwise. -/
def moveNode (db : NodeDb) (nodeId afterId : Nat)
    (previousNodeOutput : Option String) (order : Option Int) :
    Option NodeDb :=
  match getNode db nodeId, getNode db afterId with
  | some node, some afterNode =>
    let originNextNodes :=
      (getNextNodes db (some nodeId) none).map (fun n => n.id)
    let db1 := updatePreviousNode db node.prev originNextNodes
      (some node.out)
    let destinationNextNodes :=
      (getNextNodes db1 (some afterId) previousNodeOutput).map
        (fun n => n.id)
    let newOut :=
      match previousNodeOutput with
      | some o => o
      | none => ""
    let newOrder :=
      match order with
      | some o => o
      | none => getUniqueOrderBeforeNode afterNode
    let db2 := db1.map (fun n =>
      if n.id == nodeId then
        { n with prev := some afterId, out := newOut, order := newOrder }
      else n)
    let outputTruthy : Bool :=
      match previousNodeOutput with
      | some o => o != ""
      | none => false
    let db3 := updatePreviousNode db2 (some nodeId) destinationNextNodes
      (if outputTruthy then some "" else none)
    some db3
  | _, _ => none

/-- Errors of the node service layer used by the claims
(`nodes/exceptions.py` names, spec section 4.2 failure taxonomy). -/
inductive NodeServiceError where
  | triggerModificationDisallowed
  | beforeInvalid
  | nodeDoesNotExist
deriving DecidableEq, Repr

/-- `AutomationNodeService.create_node`
(`nodes/service.py` lines 104-167): refuse outright when the node type
is a trigger (before any permission check or state change); with a
`before` node, refuse when it belongs to another workflow (not
representable here: the embedded table holds a single workflow's
nodes) or when it has no previous node; otherwise delegate to the
handler.  `isTriggerType` is `node_type.is_workflow_trigger`. -/
def createNodeService (db : NodeDb) (isTriggerType : Bool) (newId : Nat)
    (beforeId : Option Nat) : Except NodeServiceError NodeDb :=
  if isTriggerType then
    Except.error NodeServiceError.triggerModificationDisallowed
  else
    match beforeId with
    | some bId =>
      match getNode db bId with
      | none => Except.error NodeServiceError.nodeDoesNotExist
      | some b =>
        if b.prev.isNone then Except.error NodeServiceError.beforeInvalid
        else
          match createNode db newId (some bId) with
          | some db3 => Except.ok db3
          | none => Except.error NodeServiceError.nodeDoesNotExist
    | none =>
      match createNode db newId none with
      | some db3 => Except.ok db3
      | none => Except.error NodeServiceError.nodeDoesNotExist

/-- `AutomationNodeService.delete_node`
(`nodes/service.py` lines 236-279): fetch the node (failing when it
does not exist), check permissions (external, assumed granted), and
trash it via the external trash collaborator — the trashed row
disappears from the default queryset, modelled by removing it from the
table.  The body contains no trigger check. -/
def deleteNodeService (db : NodeDb) (nodeId : Nat) :
    Except NodeServiceError NodeDb :=
  match getNode db nodeId with
  | none => Except.error NodeServiceError.nodeDoesNotExist
  | some _ => Except.ok (db.filter (fun n => n.id != nodeId))

/-- `AutomationNodeHandler.dispatch_node`
(`nodes/handler.py` lines 620-652) for a run in which every node's
business logic succeeds: the opaque service call (spec section 6,
`dispatch(node, context) → {data, output_uid, status}`) is the
parameter `outputs`, giving each node's selected `output_uid`.  The
node is dispatched, the context records its result, and — unless the
node is the simulate-until target, in which case recursion stops —
its next nodes on the selected output are dispatched recursively.
Returns the ids of the dispatched nodes in dispatch order.  `fuel`
bounds the recursion depth (the source relies on the graph's
acyclicity); with fuel at least the table length the bound is never
hit on an acyclic graph. -/
def dispatchNode (fuel : Nat) (db : NodeDb) (simulateUntil : Option Nat)
    (outputs : Nat → String) (nodeId : Nat) : List Nat :=
  match fuel with
  | 0 => []
  | f + 1 =>
    if simulateUntil == some nodeId then [nodeId]
    else
      nodeId ::
        ((getNextNodes db (some nodeId) (some (outputs nodeId))).map
            (fun n => n.id)).flatMap
          (fun nextId => dispatchNode f db simulateUntil outputs nextId)

/-- The per-node sample results recorded by
`AutomationDispatchContext.after_dispatch` during a dispatch.
Modelled from the spec: the dispatch context is not under `src/`; spec
section 4.3 step 3 says "the context records this result against the
node (used later for 'sample data' shown in the editor)".  Every
dispatched node's result is recorded, pairing its id with its
`output_uid`. -/
def dispatchSamples (fuel : Nat) (db : NodeDb) (simulateUntil : Option Nat)
    (outputs : Nat → String) (nodeId : Nat) : List (Nat × String) :=
  (dispatchNode fuel db simulateUntil outputs nodeId).map
    (fun i => (i, outputs i))

/-!
Toolkit lemmas about the list-based table model: `getNode` lookups
through maps and appends, id preservation, and membership of filtered
id lists, all under the well-formedness assumption that node ids are
unique within a workflow's table.
-/

def dbIds (db : NodeDb) : List Nat := db.map (fun n => n.id)

theorem getNode_map (g : NodeRec → NodeRec) (hg : ∀ n, (g n).id = n.id)
    (db : NodeDb) (i : Nat) :
    getNode (db.map g) i = (getNode db i).map g := by
  induction db with
  | nil => rfl
  | cons n rest ih =>
    simp only [getNode, List.map_cons, List.find?_cons, hg n] at *
    cases h : (n.id == i) with
    | true => simp
    | false => simpa using ih

theorem dbIds_map (g : NodeRec → NodeRec) (hg : ∀ n, (g n).id = n.id)
    (db : NodeDb) : dbIds (db.map g) = dbIds db := by
  simp only [dbIds, List.map_map]
  exact List.map_congr_left (fun n _ => hg n)

theorem getNode_of_mem (db : NodeDb) (n : NodeRec)
    (hnodup : (dbIds db).Nodup) (hn : n ∈ db) :
    getNode db n.id = some n := by
  induction db with
  | nil => simp at hn
  | cons m rest ih =>
    simp only [dbIds, List.map_cons, List.nodup_cons] at hnodup
    rcases List.mem_cons.mp hn with h | h
    · subst h
      simp [getNode, List.find?_cons]
    · have hne : m.id ≠ n.id := by
        intro he
        exact hnodup.1 (he ▸ List.mem_map_of_mem (fun x => x.id) h)
      simp only [getNode, List.find?_cons]
      rw [show (m.id == n.id) = false from beq_eq_false_iff_ne.mpr hne]
      exact ih (by simpa [dbIds] using hnodup.2) h

theorem getNode_eq_some (db : NodeDb) (i : Nat) (n : NodeRec)
    (h : getNode db i = some n) : n ∈ db ∧ n.id = i :=
  ⟨List.mem_of_find?_eq_some h, by simpa using List.find?_some h⟩

theorem getNode_eq_none (db : NodeDb) (i : Nat) (h : i ∉ dbIds db) :
    getNode db i = none := by
  rw [getNode, List.find?_eq_none]
  intro n hn hbeq
  exact h (by simpa using (beq_iff_eq.mp hbeq) ▸ List.mem_map_of_mem (fun x => x.id) hn)

theorem getNode_append_some (db l2 : NodeDb) (i : Nat) (n : NodeRec)
    (h : getNode db i = some n) : getNode (db ++ l2) i = some n := by
  unfold getNode at h ⊢
  rw [List.find?_append, h]
  rfl

theorem getNode_append_none (db l2 : NodeDb) (i : Nat)
    (h : getNode db i = none) : getNode (db ++ l2) i = getNode l2 i := by
  unfold getNode at h ⊢
  rw [List.find?_append, h]
  rfl

theorem mem_filter_ids (db : NodeDb) (p : NodeRec → Bool) (n : NodeRec)
    (hnodup : (dbIds db).Nodup) (hn : n ∈ db) :
    (n.id ∈ (db.filter p).map (fun m => m.id)) ↔ p n = true := by
  constructor
  · intro h
    rcases List.mem_map.mp h with ⟨m, hmf, hmid⟩
    rcases List.mem_filter.mp hmf with ⟨hm, hpm⟩
    have h1 := getNode_of_mem db m hnodup hm
    have h2 := getNode_of_mem db n hnodup hn
    rw [hmid] at h1
    rw [h1] at h2
    cases h2
    exact hpm
  · intro hp
    exact List.mem_map.mpr ⟨n, List.mem_filter.mpr ⟨hn, hp⟩, rfl⟩

theorem contains_filter_ids (db : NodeDb) (p : NodeRec → Bool) (n : NodeRec)
    (hnodup : (dbIds db).Nodup) (hn : n ∈ db) :
    ((db.filter p).map (fun m => m.id)).contains n.id = p n := by
  unfold List.contains
  rw [List.elem_eq_mem]
  cases hp : p n with
  | true => simp [(mem_filter_ids db p n hnodup hn).mpr hp]
  | false =>
    simp only [decide_eq_false_iff_not]
    intro hmem
    rw [(mem_filter_ids db p n hnodup hn).mp hmem] at hp
    simp at hp

theorem le_foldr_max (l : List Int) (a : Int) (h : a ∈ l) :
    a ≤ l.foldr max 0 := by
  induction l with
  | nil => simp at h
  | cons b rest ih =>
    rcases List.mem_cons.mp h with rfl | h
    · exact le_max_left _ _
    · exact le_trans (ih h) (le_max_right _ _)

theorem updatePreviousNode_getNode (db : NodeDb) (p : Option Nat)
    (ts : List Nat) (o : Option String) (i : Nat) :
    getNode (updatePreviousNode db p ts o) i =
      (getNode db i).map (fun n =>
        if ts.contains n.id then
          { n with
            prev := p,
            out := (match o with | some s => s | none => n.out) }
        else n) := by
  unfold updatePreviousNode
  exact getNode_map _ (fun n => by split <;> rfl) db i

theorem updatePreviousNode_ids (db : NodeDb) (p : Option Nat)
    (ts : List Nat) (o : Option String) :
    dbIds (updatePreviousNode db p ts o) = dbIds db := by
  unfold updatePreviousNode
  exact dbIds_map _ (fun n => by split <;> rfl) db

/-- The effect of `moveNode db nodeId afterId key ord` on one row `n`
of `db` (established by `moveNode_chars`): relinked to the moved
node's old slot when it followed the moved node, repositioned when it
is the moved node, and relinked after the moved node when it sat at
the destination slot. -/
def moveEffect (nodeId afterId : Nat) (node : NodeRec) (key : Option String)
    (newOrder : Int) (n : NodeRec) : NodeRec :=
  let n1 := if n.prev == some nodeId then
      { n with prev := node.prev, out := node.out } else n
  let isDest : Bool :=
    n1.prev == some afterId &&
      (match key with | none => true | some u => n1.out == u)
  let kout : String := match key with | some o => o | none => ""
  let n2 := if n.id == nodeId then
      { n1 with prev := some afterId, out := kout, order := newOrder }
    else n1
  let clearedOut : String :=
    if (match key with | some o => o != "" | none => false) then ""
    else n2.out
  if isDest then { n2 with prev := some nodeId, out := clearedOut }
  else n2

theorem moveEffect_id (nodeId afterId : Nat) (node : NodeRec)
    (key : Option String) (newOrder : Int) (n : NodeRec) :
    (moveEffect nodeId afterId node key newOrder n).id = n.id := by
  unfold moveEffect
  dsimp only
  split <;> split <;> split <;> rfl

theorem moveNode_chars (db : NodeDb) (nodeId afterId : Nat)
    (key : Option String) (ord : Option Int) (node aft : NodeRec)
    (hnodup : (dbIds db).Nodup)
    (hnode : getNode db nodeId = some node)
    (haft : getNode db afterId = some aft) :
    ∃ d, moveNode db nodeId afterId key ord = some d ∧
      dbIds d = dbIds db ∧
      ∀ n ∈ db, getNode d n.id =
        some (moveEffect nodeId afterId node key
          (match ord with | some o => o | none => getUniqueOrderBeforeNode aft)
          n) := by
  unfold moveNode
  rw [hnode, haft]
  dsimp only
  refine ⟨_, rfl, ?_, ?_⟩
  · rw [updatePreviousNode_ids]
    rw [dbIds_map (fun n => if n.id == nodeId then
        { n with
          prev := some afterId,
          out := (match key with | some o => o | none => ""),
          order := (match ord with
                    | some o => o
                    | none => getUniqueOrderBeforeNode aft) } else n)
      (fun n => by by_cases h : (n.id == nodeId) = true <;> simp [h])]
    rw [updatePreviousNode_ids]
  · intro n hn
    rw [updatePreviousNode_getNode]
    rw [getNode_map]
    rotate_left
    · intro m
      by_cases h : (m.id == nodeId) = true <;> simp [h]
    rw [updatePreviousNode_getNode]
    rw [getNode_of_mem db n hnodup hn]
    simp only [Option.map_some']
    have hc1 : ((getNextNodes db (some nodeId) none).map
        (fun m => m.id)).contains n.id = (n.prev == some nodeId) := by
      unfold getNextNodes
      rw [contains_filter_ids db _ n hnodup hn]
      simp
    rw [hc1]
    have hr1id : (if (n.prev == some nodeId) = true then
        ({ n with prev := node.prev, out := node.out } : NodeRec)
        else n).id = n.id := by
      split <;> rfl
    have hnodup1 : (dbIds (updatePreviousNode db node.prev
        ((getNextNodes db (some nodeId) none).map (fun n => n.id))
        (some node.out))).Nodup := by
      rw [updatePreviousNode_ids]
      exact hnodup
    have hmem1 : (if (n.prev == some nodeId) = true then
        ({ n with prev := node.prev, out := node.out } : NodeRec)
        else n) ∈ updatePreviousNode db node.prev
          ((getNextNodes db (some nodeId) none).map (fun n => n.id))
          (some node.out) := by
      unfold updatePreviousNode
      refine List.mem_map.mpr ⟨n, hn, ?_⟩
      dsimp only
      rw [hc1]
    have hc3 := contains_filter_ids
      (updatePreviousNode db node.prev
        ((getNextNodes db (some nodeId) none).map (fun n => n.id))
        (some node.out))
      (fun m => m.prev == some afterId &&
        match key with | none => true | some u => m.out == u)
      _ hnodup1 hmem1
    rw [hr1id] at hc3
    have iteid : ∀ (c : Bool) (a b : NodeRec),
        (if c = true then a else b).id = if c = true then a.id else b.id :=
      fun c a b => apply_ite NodeRec.id _ a b
    simp only [iteid]
    simp only [ite_self]
    unfold getNextNodes at hc3 ⊢
    rw [hc3]
    beta_reduce
    simp only [moveEffect]
    cases ht : (match key with | some o => o != "" | none => false) with
    | true => simp [ht, apply_ite NodeRec.id]
    | false => simp [ht, apply_ite NodeRec.id]

/-- Claim C4: for every Move(node, afterNode, newOutputKey?) operation, every
node that was following `afterNode` on the destination branch
immediately before the move is relinked to follow the moved node with
an empty `previous_node_output` key, also when no new output key is
supplied. -/
theorem move_destination_relink
    (db : NodeDb) (nodeId afterId : Nat) (key : Option String)
    (ord : Option Int) (node afterNode n : NodeRec)
    (hnodup : (dbIds db).Nodup)
    (hnode : getNode db nodeId = some node)
    (hafter : getNode db afterId = some afterNode)
    (hne : afterId ≠ nodeId)
    (hn : n ∈ db) (hnid : n.id ≠ nodeId)
    (hprev : n.prev = some afterId)
    (hout : n.out = (match key with | some u => u | none => "")) :
    ∃ d, moveNode db nodeId afterId key ord = some d ∧
      getNode d n.id = some { n with prev := some nodeId, out := "" } := by
  obtain ⟨d, hd, _, hpt⟩ :=
    moveNode_chars db nodeId afterId key ord node afterNode hnodup hnode hafter
  refine ⟨d, hd, ?_⟩
  rw [hpt n hn]
  congr 1
  have h1 : (n.prev == some nodeId) = false := by
    rw [hprev]
    simp [hne]
  have h2 : (n.id == nodeId) = false := by simp [hnid]
  rcases key with _ | u
  · simp [moveEffect, h2, hprev, hne, hout]
  · by_cases hu : u = ""
    · subst hu
      simp [moveEffect, h2, hprev, hne, hout]
    · simp [moveEffect, h2, hprev, hne, hout, hu]

/-- A well-formed four-node workflow used to refute the move
round-trip claim: trigger 1, branching node 2 after the trigger, node
3 on node 2's named output branch "a", node 4 after node 3. -/
def roundTripDb : NodeDb :=
  [{ id := 1, prev := none, out := "", order := 0, isTrigger := true },
   { id := 2, prev := some 1, out := "", order := 1, isTrigger := false },
   { id := 3, prev := some 2, out := "a", order := 2, isTrigger := false },
   { id := 4, prev := some 3, out := "", order := 3, isTrigger := false }]

/-- Claim C5 counterexample: moving node 2 after node 4 and then back after
its original predecessor 1 on its original branch does not restore the
original successor relation — node 3, originally on node 2's branch
"a", ends with an empty `previous_node_output`. -/
theorem move_round_trip_counterexample :
    ((moveNode roundTripDb 2 4 none none).bind
        (fun d1 => moveNode d1 2 1 (some "") none)).map
      (fun d2 => (getNode d2 3).map (fun n => (n.prev, n.out))) =
      some (some (some 2, "")) ∧
    (getNode roundTripDb 3).map (fun n => (n.prev, n.out)) =
      some (some 2, "a") := by
  constructor
  · rfl
  · rfl

/-- Claim C5, amended: the move round trip restores every node's
predecessor/branch pair provided the moved node's successors all sit
on its default (empty) branch, the first move names its destination
branch explicitly, and the first move does not target the moved node's
own current slot. -/
theorem move_round_trip_amended
    (db : NodeDb) (X Y P : Nat) (k : String) (x y pnode : NodeRec)
    (hnodup : (dbIds db).Nodup)
    (hx : getNode db X = some x)
    (hy : getNode db Y = some y)
    (hp : getNode db P = some pnode)
    (hxprev : x.prev = some P)
    (hXY : X ≠ Y) (hXP : X ≠ P)
    (hnoback : ¬(Y = P ∧ k = x.out))
    (hsucc : ∀ n ∈ db, n.prev = some X → n.out = "")
    (huniq : ∀ n ∈ db, n.prev = some P → n.out = x.out → n.id = X) :
    ∃ d1 d2, moveNode db X Y (some k) none = some d1 ∧
      moveNode d1 X P (some x.out) none = some d2 ∧
      ∀ n ∈ db, ∃ m, getNode d2 n.id = some m ∧
        m.prev = n.prev ∧ m.out = n.out := by
  obtain ⟨d1, hd1, hids1, hpt1⟩ :=
    moveNode_chars db X Y (some k) none x y hnodup hx hy
  obtain ⟨hxmem, hxid⟩ := getNode_eq_some db X x hx
  obtain ⟨hpmem, hpid⟩ := getNode_eq_some db P pnode hp
  have hnodup1 : (dbIds d1).Nodup := by
    rw [hids1]
    exact hnodup
  have hx1 := hpt1 x hxmem
  rw [hxid] at hx1
  have hp1 := hpt1 pnode hpmem
  rw [hpid] at hp1
  obtain ⟨d2, hd2, hids2, hpt2⟩ :=
    moveNode_chars d1 X P (some x.out) none _ _ hnodup1 hx1 hp1
  refine ⟨d1, d2, hd1, hd2, ?_⟩
  intro n hn
  have h1 := hpt1 n hn
  obtain ⟨hmem1, hid1⟩ := getNode_eq_some d1 n.id _ h1
  have h2 := hpt2 _ hmem1
  rw [hid1] at h2
  refine ⟨_, h2, ?_⟩
  by_cases hidX : n.id = X
  · have hnx : n = x := by
      have hnn := getNode_of_mem db n hnodup hn
      rw [hidX, hx] at hnn
      exact (Option.some.inj hnn).symm
    subst hnx
    by_cases hYP : P = Y
    · have hk : n.out ≠ k := by
        intro hk0
        exact hnoback ⟨hYP.symm, hk0.symm⟩
      refine ⟨?_, ?_⟩ <;>
        simp [moveEffect, hxprev, hxid, Ne.symm hXP, Ne.symm hXY, hYP,
          Ne.symm hk, hk]
    · refine ⟨?_, ?_⟩ <;>
        simp [moveEffect, hxprev, hxid, Ne.symm hXP, Ne.symm hXY, hYP,
          Ne.symm hYP]
  · by_cases hS : n.prev = some X
    · have hout : n.out = "" := hsucc n hn hS
      by_cases hYP : P = Y
      · have hk : x.out ≠ k := by
          intro hk0
          exact hnoback ⟨hYP.symm, hk0.symm⟩
        refine ⟨?_, ?_⟩ <;>
          simp [moveEffect, hS, hout, hxprev, hxid, hidX, Ne.symm hXP,
            Ne.symm hXY, hYP, Ne.symm hk, hk]
      · refine ⟨?_, ?_⟩ <;>
          simp [moveEffect, hS, hout, hxprev, hxid, hidX, Ne.symm hXP,
            Ne.symm hXY, hYP, Ne.symm hYP]
    · by_cases hD : n.prev = some Y ∧ n.out = k
      · by_cases hYP : P = Y
        · have hk : x.out ≠ k := by
            intro hk0
            exact hnoback ⟨hYP.symm, hk0.symm⟩
          refine ⟨?_, ?_⟩ <;>
            simp [moveEffect, hD.1, hD.2, hidX, hxid, Ne.symm hXY,
              Ne.symm hXP, hYP, hxprev, Ne.symm hk, hk]
        · refine ⟨?_, ?_⟩ <;>
            simp [moveEffect, hD.1, hD.2, hidX, hxid, Ne.symm hXY,
              Ne.symm hXP, hYP, hxprev, Ne.symm hYP]
      · have hnotdest : ¬(n.prev = some P ∧ n.out = x.out) := by
          intro hpr
          exact hidX (huniq n hn hpr.1 hpr.2)
        refine ⟨?_, ?_⟩ <;>
          simp [moveEffect, hidX, hxid, hS, hD, hnotdest, hxprev,
            Ne.symm hXY, Ne.symm hXP]

theorem contains_filter_ids_not_mem (db : NodeDb) (q : NodeRec → Bool)
    (i : Nat) (h : i ∉ dbIds db) :
    ((db.filter q).map (fun n => n.id)).contains i = false := by
  unfold List.contains
  rw [List.elem_eq_mem]
  simp only [decide_eq_false_iff_not]
  intro hmem
  rcases List.mem_map.mp hmem with ⟨m, hmf, hmi⟩
  exact h (hmi ▸ List.mem_map_of_mem (fun x => x.id) (List.mem_of_mem_filter hmf))

theorem getNode_singleton_id (i : Nat) (pr : Option Nat) (ou : String)
    (od : Int) (tg : Bool) :
    getNode [{ id := i, prev := pr, out := ou, order := od,
               isTrigger := tg }] i =
      some { id := i, prev := pr, out := ou, order := od,
             isTrigger := tg } := by
  simp [getNode]

/-- Claim C3: creating a node before a node `b` that has a predecessor
splices the new node directly in front of `b`: the new node takes
`b`'s former `previous_node_id` and `previous_node_output`, `b`'s own
output is cleared to the empty string, and every node that shared
`b`'s exact former predecessor/output pair is relinked to the new
node. -/
theorem create_before_splice
    (db : NodeDb) (newId bId p : Nat) (b : NodeRec)
    (hnodup : (dbIds db).Nodup)
    (hfresh : newId ∉ dbIds db)
    (hb : getNode db bId = some b)
    (hbp : b.prev = some p) :
    ∃ d, createNode db newId (some bId) = some d ∧
      getNode d newId = some { id := newId, prev := some p, out := b.out,
                               order := getUniqueOrderBeforeNode b,
                               isTrigger := false } ∧
      getNode d bId = some { b with prev := some newId, out := "" } ∧
      ∀ n ∈ db, n.prev = some p → n.out = b.out →
        (getNode d n.id).map (fun m => m.prev) = some (some newId) := by
  obtain ⟨hbmem, hbid⟩ := getNode_eq_some db bId b hb
  have hbIdmem : bId ∈ dbIds db :=
    hbid ▸ List.mem_map_of_mem (fun x => x.id) hbmem
  have hnewb : newId ≠ bId := fun h => hfresh (h ▸ hbIdmem)
  unfold createNode
  dsimp only
  rw [hb]
  dsimp only
  rw [hbp]
  dsimp only
  by_cases hbo : b.out = ""
  · have hnne : ¬(b.out ≠ "") := fun hcon => hcon hbo
    rw [if_neg hnne, if_neg hnne]
    refine ⟨_, rfl, ?_, ?_, ?_⟩
    · rw [updatePreviousNode_getNode,
        getNode_append_none db _ _ (getNode_eq_none db newId hfresh),
        getNode_singleton_id]
      have hcn := contains_filter_ids_not_mem db
        (fun n => n.prev == some p && n.out == b.out) newId hfresh
      simp only [Option.map_some']
      rw [hcn]
      simp [hbo]
    · rw [updatePreviousNode_getNode, getNode_append_some db _ _ _ hb]
      simp only [Option.map_some']
      rw [contains_filter_ids db _ b hnodup hbmem]
      simp [hbp, hbo]
    · intro n hn hp2 ho2
      rw [updatePreviousNode_getNode,
        getNode_append_some db _ _ _ (getNode_of_mem db n hnodup hn)]
      simp only [Option.map_some']
      rw [contains_filter_ids db _ n hnodup hn]
      simp [hp2, ho2]
  · rw [if_pos hbo, if_pos hbo]
    refine ⟨_, rfl, ?_, ?_, ?_⟩
    · rw [getNode_map _ (fun m => by
        by_cases h : (m.id == bId) = true <;> simp [h])]
      rw [updatePreviousNode_getNode,
        getNode_append_none db _ _ (getNode_eq_none db newId hfresh),
        getNode_singleton_id]
      have hcn := contains_filter_ids_not_mem db
        (fun n => n.prev == some p && n.out == b.out) newId hfresh
      simp only [Option.map_some']
      rw [hcn]
      simp [hnewb]
    · rw [getNode_map _ (fun m => by
        by_cases h : (m.id == bId) = true <;> simp [h])]
      rw [updatePreviousNode_getNode, getNode_append_some db _ _ _ hb]
      simp only [Option.map_some']
      rw [contains_filter_ids db _ b hnodup hbmem]
      simp [hbp, hbid]
    · intro n hn hp2 ho2
      rw [getNode_map _ (fun m => by
        by_cases h : (m.id == bId) = true <;> simp [h])]
      rw [updatePreviousNode_getNode,
        getNode_append_some db _ _ _ (getNode_of_mem db n hnodup hn)]
      simp only [Option.map_some']
      rw [contains_filter_ids db _ n hnodup hn]
      by_cases hnb : (n.id == bId) = true <;> simp [hp2, ho2, hnb]

/-- Claim C6: duplicating a non-trigger node appends the copy last in the
workflow's display order with the source as its previous node and an
empty output, relinks exactly the source's empty-branch successors to
the copy, and leaves every other node — named-branch successors
included — unchanged. -/
theorem duplicate_default_branch_relink
    (db : NodeDb) (srcId newId : Nat) (src : NodeRec)
    (hnodup : (dbIds db).Nodup)
    (hfresh : newId ∉ dbIds db)
    (hsrc : getNode db srcId = some src) :
    ∃ d, duplicateNode db srcId newId = some d ∧
      getNode d newId = some { id := newId, prev := some srcId, out := "",
                               order := getLastOrder db,
                               isTrigger := src.isTrigger } ∧
      (∀ n ∈ db, n.order < getLastOrder db) ∧
      (∀ n ∈ db, n.prev = some srcId → n.out = "" →
        getNode d n.id = some { n with prev := some newId }) ∧
      (∀ n ∈ db, ¬(n.prev = some srcId ∧ n.out = "") →
        getNode d n.id = some n) := by
  unfold duplicateNode getNextNodes
  rw [hsrc]
  dsimp only
  refine ⟨_, rfl, ?_, ?_, ?_, ?_⟩
  · rw [updatePreviousNode_getNode,
      getNode_append_none db _ _ (getNode_eq_none db newId hfresh),
      getNode_singleton_id]
    have hcn := contains_filter_ids_not_mem db
      (fun n => n.prev == some srcId && n.out == "") newId hfresh
    simp only [Option.map_some']
    rw [hcn]
    simp
  · intro n hn
    unfold getLastOrder
    have hle := le_foldr_max (db.map (fun m => m.order)) n.order
      (List.mem_map_of_mem (fun m => m.order) hn)
    omega
  · intro n hn hp ho
    rw [updatePreviousNode_getNode,
      getNode_append_some db _ _ _ (getNode_of_mem db n hnodup hn)]
    simp only [Option.map_some']
    rw [contains_filter_ids db _ n hnodup hn]
    simp [hp, ho]
  · intro n hn hno
    rw [updatePreviousNode_getNode,
      getNode_append_some db _ _ _ (getNode_of_mem db n hnodup hn)]
    simp only [Option.map_some']
    rw [contains_filter_ids db _ n hnodup hn]
    have hfalse : (n.prev == some srcId && n.out == "") = false := by
      by_cases h1 : n.prev = some srcId
      · by_cases h2 : n.out = ""
        · exact absurd ⟨h1, h2⟩ hno
        · simp [h2]
      · simp [h1]
    simp [hfalse]

/-- Claim C7: in a workflow shaped trigger to A to B with
`simulate_until_node` set to A, dispatching from the trigger runs the
trigger's and A's business logic, records A's sample result, and never
dispatches B — recursion stops at A as a deliberate early return. -/
theorem simulate_until_halts_recursion
    (tn an bn : NodeRec) (outputs : Nat → String)
    (htn : tn.prev = none) (_htrig : tn.isTrigger = true)
    (hta : an.prev = some tn.id) (hab : bn.prev = some an.id)
    (htout : an.out = outputs tn.id)
    (hne1 : tn.id ≠ an.id) (hne2 : an.id ≠ bn.id) (hne3 : tn.id ≠ bn.id) :
    dispatchNode 3 [tn, an, bn] (some an.id) outputs tn.id =
      [tn.id, an.id] ∧
    bn.id ∉ dispatchNode 3 [tn, an, bn] (some an.id) outputs tn.id ∧
    (an.id, outputs an.id) ∈
      dispatchSamples 3 [tn, an, bn] (some an.id) outputs tn.id := by
  have hmain : dispatchNode 3 [tn, an, bn] (some an.id) outputs tn.id =
      [tn.id, an.id] := by
    simp [dispatchNode, getNextNodes, htn, hta, hab, htout,
      Ne.symm hne1, hne1, hne2, hne3]
  refine ⟨hmain, ?_, ?_⟩
  · rw [hmain]
    simp [Ne.symm hne2, Ne.symm hne3]
  · rw [dispatchSamples, hmain]
    simp

/-- Claim C2: a run is rate limited exactly when at least `maxRuns`
recorded start timestamps lie strictly within the last
`expirySeconds` seconds; otherwise the current timestamp is appended
to the pruned window and the run is admitted — and with a 60-second
window and a maximum of 3 runs, four events at seconds 0, 10, 20 and
30 admit the first three and deny the fourth. -/
theorem rate_limit_deny_iff (expirySeconds maxRuns : Nat) (now : Int)
    (data : List Int) :
    (checkIsRateLimitedValue expirySeconds maxRuns now data = none ↔
      maxRuns ≤ (data.filter
        (fun t => now - (expirySeconds : Int) < t)).length) ∧
    (∀ l, checkIsRateLimitedValue expirySeconds maxRuns now data = some l →
      l = data.filter (fun t => now - (expirySeconds : Int) < t) ++ [now]) ∧
    (checkIsRateLimitedValue 60 3 0 [] = some [0] ∧
     checkIsRateLimitedValue 60 3 10 [0] = some [0, 10] ∧
     checkIsRateLimitedValue 60 3 20 [0, 10] = some [0, 10, 20] ∧
     checkIsRateLimitedValue 60 3 30 [0, 10, 20] = none) := by
  refine ⟨?_, ?_, by decide, by decide, by decide, by decide⟩
  · unfold checkIsRateLimitedValue
    by_cases h : maxRuns ≤ (data.filter
        (fun t => now - (expirySeconds : Int) < t)).length
    · simp [h]
    · simp [h]
  · intro l hl
    unfold checkIsRateLimitedValue at hl
    by_cases h : maxRuns ≤ (data.filter
        (fun t => now - (expirySeconds : Int) < t)).length
    · simp [h] at hl
    · simp [h] at hl
      exact hl.symm

/-- Claim C9: `create_node` with a trigger node type always fails with
the trigger-modification error before any state change, but
`delete_node` applied to a workflow's trigger succeeds — the node is
trashed and removed from the workflow — contradicting the claim and
the method's own docstring, which promise a trigger-deletion failure.
The second conjunct evaluates the code at the failing input: a
two-node workflow whose trigger (id 1) is deleted. -/
theorem trigger_protection_evaluation :
    (∀ (db : NodeDb) (newId : Nat) (beforeId : Option Nat),
      createNodeService db true newId beforeId =
        Except.error NodeServiceError.triggerModificationDisallowed) ∧
    deleteNodeService
        [{ id := 1, prev := none, out := "", order := 0,
           isTrigger := true },
         { id := 2, prev := some 1, out := "", order := 1,
           isTrigger := false }] 1 =
      Except.ok
        [{ id := 2, prev := some 1, out := "", order := 1,
           isTrigger := false }] := by
  constructor
  · intro db newId beforeId
    rfl
  · rfl

theorem updateLast_append (f : α → α) (l : List α) (a : α) :
    updateLast f (l ++ [a]) = l ++ [f a] := by
  induction l with
  | nil => rfl
  | cons x xs ih =>
    cases xs with
    | nil => rfl
    | cons y ys =>
      show x :: updateLast f ((y :: ys) ++ [a]) = x :: ((y :: ys) ++ [f a])
      rw [ih]

theorem insertByStartedOnDesc_le (e x : HistoryEntry)
    (rest : List HistoryEntry) (h : x.startedOn ≤ e.startedOn) :
    insertByStartedOnDesc x (e :: rest) = e :: insertByStartedOnDesc x rest := by
  cases rest with
  | nil => simp [insertByStartedOnDesc, h]
  | cons z zs => simp [insertByStartedOnDesc, h]

theorem foldr_insert_head (l : List HistoryEntry) (e : HistoryEntry)
    (h : ∀ x ∈ l, x.startedOn ≤ e.startedOn) :
    l.foldr insertByStartedOnDesc [e] =
      e :: l.foldr insertByStartedOnDesc [] := by
  induction l with
  | nil => rfl
  | cons x xs ih =>
    show insertByStartedOnDesc x (xs.foldr insertByStartedOnDesc [e]) = _
    rw [ih (fun y hy => h y (List.mem_cons_of_mem x hy))]
    exact insertByStartedOnDesc_le e x _ (h x (List.mem_cons_self x xs))

theorem historyStatusesDesc_append (h : List HistoryEntry)
    (e : HistoryEntry) (wid : Nat) (hw : e.workflowId = wid)
    (hts : ∀ x ∈ h, x.startedOn ≤ e.startedOn) :
    historyStatusesDesc (h ++ [e]) wid =
      e.status :: historyStatusesDesc h wid := by
  unfold historyStatusesDesc
  rw [List.filter_append]
  have he : List.filter (fun x => x.workflowId == wid) [e] = [e] := by
    simp [hw]
  rw [he, List.foldr_append]
  show ((h.filter (fun x => x.workflowId == wid)).foldr
      insertByStartedOnDesc [e]).map (fun x => x.status) = _
  rw [foldr_insert_head _ e
    (fun x hx => hts x (List.mem_of_mem_filter hx))]
  rfl

theorem beforeRun_fst_history (me es mr : Nat) (now : Int)
    (st : EngineState) (wid : Nat) :
    (beforeRun me es mr now st wid).fst.history = st.history := by
  unfold beforeRun
  dsimp only
  split
  · rfl
  · split <;> rfl

theorem beforeRun_fst_workflows (me es mr : Nat) (now : Int)
    (st : EngineState) (wid : Nat) :
    (beforeRun me es mr now st wid).fst.workflows =
      st.workflows.map (fun x =>
        if x.id == wid then resetWorkflowTemporaryStates x else x) := by
  unfold beforeRun
  dsimp only
  split
  · rfl
  · split <;> rfl

theorem beforeRun_snd (me es mr : Nat) (now : Int) (st : EngineState)
    (wid : Nat) :
    (beforeRun me es mr now st wid).snd =
      if checkTooManyErrors me (historyStatusesDesc st.history wid) then
        some DenyReason.tooManyErrors
      else
        match checkIsRateLimitedValue es mr now
            (getRateWindow st.rateWindows wid) with
        | none => some DenyReason.rateLimited
        | some _ => none := by
  unfold beforeRun
  dsimp only
  split
  · rfl
  · split <;> rfl

theorem getRateWindow_setRateWindow_ne (ws : Nat → List Int)
    (wid k : Nat) (data : List Int) (h : k ≠ wid) :
    getRateWindow (setRateWindow ws wid data) k = getRateWindow ws k := by
  unfold setRateWindow getRateWindow
  simp [h]

theorem beforeRun_rateWindows_ne (me es mr : Nat) (now : Int)
    (st : EngineState) (wid k : Nat) (hk : k ≠ wid) :
    getRateWindow (beforeRun me es mr now st wid).fst.rateWindows k =
      getRateWindow st.rateWindows k := by
  unfold beforeRun
  dsimp only
  split
  · rfl
  · split
    · rfl
    · exact getRateWindow_setRateWindow_ne _ _ _ _ hk

/-- A draft workflow and a run history of three consecutive errors
preceded by a success, with no in-progress entry, used to refute the
claimed circuit-breaker condition. -/
def cbHistory : List HistoryEntry :=
  [{ workflowId := 1, startedOn := 40, completedOn := some 41,
     status := HistoryStatus.error, message := "x", isTestRun := true },
   { workflowId := 1, startedOn := 30, completedOn := some 31,
     status := HistoryStatus.error, message := "x", isTestRun := true },
   { workflowId := 1, startedOn := 20, completedOn := some 21,
     status := HistoryStatus.error, message := "x", isTestRun := true },
   { workflowId := 1, startedOn := 10, completedOn := some 11,
     status := HistoryStatus.success, message := "", isTestRun := true }]

/-- Claim C1 counterexample: with threshold 3 and history
Error, Error, Error, Success (most recent first, no leading Started
entry — e.g. the pre-run check of a simulation, which opens no history
entry), the claimed condition denies — the 3 most recent entries are
all Error — but `before_run` admits: the code requires all of the 4
inspected entries to be Error when no leading Started entry was
dropped. -/
theorem circuit_breaker_counterexample :
    specCircuitBreakerDenies 3 (historyStatusesDesc cbHistory 1) = true ∧
    (beforeRun 3 60 5 50
        { workflows := [{ id := 1, state := WorkflowState.draft,
                          allowTestRunUntil := none,
                          simulateUntilNodeId := none,
                          publishedFromId := none }],
          history := cbHistory,
          rateWindows := fun _ => [] } 1).snd = none := by
  constructor
  · rfl
  · rfl

/-- Claim C1, amended: the pre-run circuit breaker denies with
TooManyConsecutiveErrors exactly when, after excluding a leading
Started entry from the `N + 1` most recent history entries, at least
`N` entries remain and all of them are Error; and when the check fires
during `start_workflow` — where the just-opened Started entry is the
most recent — both the executing workflow and its original draft are
transitioned to Disabled. -/
theorem circuit_breaker_amended
    (maxErrors expirySeconds maxRuns : Nat) (st : EngineState)
    (wid : Nat) (w : Workflow) (outcome : DispatchOutcome) (t1 t2 : Int)
    (st' : EngineState)
    (hw : findWorkflow st.workflows wid = some w)
    (hts : ∀ e ∈ st.history, e.startedOn ≤ t1)
    (hrun : startWorkflow maxErrors expirySeconds maxRuns st wid false
      outcome t1 t2 = some st') :
    (∀ (n : Nat) (statuses : List HistoryStatus),
      checkTooManyErrors n statuses =
        specCircuitBreakerDeniesAmended n statuses) ∧
    (checkTooManyErrors maxErrors (HistoryStatus.started ::
        historyStatusesDesc st.history (getOriginalWorkflowId w)) = true →
      ∀ x ∈ st'.workflows,
        x.id = wid ∨ x.id = getOriginalWorkflowId w →
        x.state = WorkflowState.disabled) := by
  constructor
  · intro n statuses
    unfold checkTooManyErrors specCircuitBreakerDeniesAmended
    by_cases h : (dropLeadingStarted (statuses.take (n + 1))).length < n
    · simp [h, show ¬(n ≤ (dropLeadingStarted
        (statuses.take (n + 1))).length) from by omega]
    · simp [h, show n ≤ (dropLeadingStarted
        (statuses.take (n + 1))).length from by omega]
  · intro hcond x hx hid
    unfold startWorkflow at hrun
    rw [hw] at hrun
    simp only [Bool.false_eq_true, if_false] at hrun
    rw [beforeRun_snd] at hrun
    dsimp only at hrun
    rw [historyStatusesDesc_append st.history
      (createWorkflowHistory (getOriginalWorkflowId w) t1
        (getOriginalWorkflowId w == wid))
      (getOriginalWorkflowId w) rfl hts] at hrun
    dsimp only [createWorkflowHistory] at hrun
    rw [hcond] at hrun
    simp only [eq_self_iff_true, if_true] at hrun
    cases hrun
    have hwid : w.id = wid := by simpa using List.find?_some hw
    dsimp only at hx
    unfold disableWorkflow at hx
    rcases List.mem_map.mp hx with ⟨y, hy, rfl⟩
    have hgid : (if (y.id == w.id ||
        y.id == getOriginalWorkflowId w) = true then
        { y with state := WorkflowState.disabled } else y).id = y.id := by
      split <;> rfl
    rw [hgid] at hid
    have hcondy : (y.id == w.id || y.id == getOriginalWorkflowId w) = true := by
      rcases hid with h1 | h1
      · simp [h1, hwid]
      · simp [h1]
    rw [if_pos hcondy]

/-- Claim C8: every non-simulated run appends one history entry —
opened on the original workflow at the start time — and every
termination path closes it with a completion time and a final status
of Success, Error or Disabled, Disabled exactly when the circuit
breaker denied the run; a simulated run records no history entry. -/
theorem history_entry_always_closed
    (maxErrors expirySeconds maxRuns : Nat) (st : EngineState)
    (wid : Nat) (w : Workflow) (simulate : Bool)
    (outcome : DispatchOutcome) (t1 t2 : Int) (st' : EngineState)
    (hw : findWorkflow st.workflows wid = some w)
    (hts : ∀ e ∈ st.history, e.startedOn ≤ t1)
    (hrun : startWorkflow maxErrors expirySeconds maxRuns st wid simulate
      outcome t1 t2 = some st') :
    (simulate = true → st'.history = st.history) ∧
    (simulate = false → ∃ e, st'.history = st.history ++ [e] ∧
      e.workflowId = getOriginalWorkflowId w ∧
      e.startedOn = t1 ∧ e.completedOn = some t2 ∧
      (e.status = HistoryStatus.success ∨ e.status = HistoryStatus.error ∨
        e.status = HistoryStatus.disabled) ∧
      (e.status = HistoryStatus.disabled ↔
        checkTooManyErrors maxErrors (HistoryStatus.started ::
          historyStatusesDesc st.history
            (getOriginalWorkflowId w)) = true)) := by
  unfold startWorkflow at hrun
  rw [hw] at hrun
  cases simulate with
  | true =>
    refine ⟨fun _ => ?_, fun hc => nomatch hc⟩
    simp only [if_true, eq_self_iff_true] at hrun
    rw [beforeRun_snd] at hrun
    cases hcond : checkTooManyErrors maxErrors
        (historyStatusesDesc st.history (getOriginalWorkflowId w)) with
    | true =>
      rw [hcond] at hrun
      simp only [eq_self_iff_true, if_true] at hrun
      cases hrun
      exact beforeRun_fst_history maxErrors expirySeconds maxRuns t1 st
        (getOriginalWorkflowId w)
    | false =>
      rw [hcond] at hrun
      simp only [Bool.false_eq_true, if_false] at hrun
      cases hrate : checkIsRateLimitedValue expirySeconds maxRuns t1
          (getRateWindow st.rateWindows (getOriginalWorkflowId w)) with
      | none =>
        rw [hrate] at hrun
        cases hrun
        exact beforeRun_fst_history maxErrors expirySeconds maxRuns t1 st
          (getOriginalWorkflowId w)
      | some l =>
        rw [hrate] at hrun
        cases outcome <;> cases hrun <;>
          exact beforeRun_fst_history maxErrors expirySeconds maxRuns t1 st
            (getOriginalWorkflowId w)
  | false =>
    refine ⟨fun hc => (nomatch hc), fun _ => ?_⟩
    simp only [Bool.false_eq_true, if_false] at hrun
    rw [beforeRun_snd] at hrun
    dsimp only at hrun
    rw [historyStatusesDesc_append st.history
      (createWorkflowHistory (getOriginalWorkflowId w) t1
        (getOriginalWorkflowId w == wid))
      (getOriginalWorkflowId w) rfl hts] at hrun
    dsimp only [createWorkflowHistory] at hrun
    cases hcond : checkTooManyErrors maxErrors (HistoryStatus.started ::
        historyStatusesDesc st.history (getOriginalWorkflowId w)) with
    | true =>
      rw [hcond] at hrun
      simp only [eq_self_iff_true, if_true] at hrun
      cases hrun
      refine ⟨{ workflowId := getOriginalWorkflowId w, startedOn := t1,
                completedOn := some t2,
                status := HistoryStatus.disabled,
                message := "The workflow was disabled due to too many consecutive errors.",
                isTestRun := (getOriginalWorkflowId w == wid) },
              ?_, rfl, rfl, rfl, Or.inr (Or.inr rfl), by simp [hcond]⟩
      rw [beforeRun_fst_history]
      dsimp only
      rw [updateLast_append]
    | false =>
      rw [hcond] at hrun
      simp only [Bool.false_eq_true, if_false] at hrun
      cases hrate : checkIsRateLimitedValue expirySeconds maxRuns t1
          (getRateWindow st.rateWindows (getOriginalWorkflowId w)) with
      | none =>
        rw [hrate] at hrun
        cases hrun
        refine ⟨{ workflowId := getOriginalWorkflowId w, startedOn := t1,
                  completedOn := some t2,
                  status := HistoryStatus.error,
                  message := "The workflow was rate limited due to too many recent runs.",
                  isTestRun := (getOriginalWorkflowId w == wid) },
                ?_, rfl, rfl, rfl, Or.inr (Or.inl rfl), by simp [hcond]⟩
        rw [beforeRun_fst_history]
        dsimp only
        rw [updateLast_append]
      | some l =>
        rw [hrate] at hrun
        cases outcome with
        | success =>
          cases hrun
          refine ⟨{ workflowId := getOriginalWorkflowId w, startedOn := t1,
                    completedOn := some t2,
                    status := HistoryStatus.success, message := "",
                    isTestRun := (getOriginalWorkflowId w == wid) },
                  ?_, rfl, rfl, rfl, Or.inl rfl, by simp [hcond]⟩
          rw [beforeRun_fst_history]
          dsimp only
          rw [updateLast_append]
        | dispatchError m =>
          cases hrun
          refine ⟨{ workflowId := getOriginalWorkflowId w, startedOn := t1,
                    completedOn := some t2,
                    status := HistoryStatus.error, message := m,
                    isTestRun := (getOriginalWorkflowId w == wid) },
                  ?_, rfl, rfl, rfl, Or.inr (Or.inl rfl), by simp [hcond]⟩
          rw [beforeRun_fst_history]
          dsimp only
          rw [updateLast_append]
        | unexpectedError m =>
          cases hrun
          refine ⟨{ workflowId := getOriginalWorkflowId w, startedOn := t1,
                    completedOn := some t2,
                    status := HistoryStatus.error,
                    message := "Unexpected error while running workflow. Error: " ++ m,
                    isTestRun := (getOriginalWorkflowId w == wid) },
                  ?_, rfl, rfl, rfl, Or.inr (Or.inl rfl), by simp [hcond]⟩
          rw [beforeRun_fst_history]
          dsimp only
          rw [updateLast_append]

theorem startWorkflow_shape (maxErrors expirySeconds maxRuns : Nat)
    (st : EngineState) (wid : Nat) (w : Workflow) (simulate : Bool)
    (outcome : DispatchOutcome) (t1 t2 : Int) (st' : EngineState)
    (hw : findWorkflow st.workflows wid = some w)
    (hrun : startWorkflow maxErrors expirySeconds maxRuns st wid simulate
      outcome t1 t2 = some st') :
    (st'.workflows = disableWorkflow
        (beforeRun maxErrors expirySeconds maxRuns t1
          (if simulate = true then st else
            { st with history := st.history ++
              [createWorkflowHistory (getOriginalWorkflowId w) t1
                (getOriginalWorkflowId w == wid)] })
          (getOriginalWorkflowId w)).fst.workflows w ∨
      st'.workflows = (beforeRun maxErrors expirySeconds maxRuns t1
          (if simulate = true then st else
            { st with history := st.history ++
              [createWorkflowHistory (getOriginalWorkflowId w) t1
                (getOriginalWorkflowId w == wid)] })
          (getOriginalWorkflowId w)).fst.workflows) ∧
    st'.rateWindows = (beforeRun maxErrors expirySeconds maxRuns t1
        (if simulate = true then st else
          { st with history := st.history ++
            [createWorkflowHistory (getOriginalWorkflowId w) t1
              (getOriginalWorkflowId w == wid)] })
        (getOriginalWorkflowId w)).fst.rateWindows ∧
    (simulate = false → ∃ e, st'.history = st.history ++ [e] ∧
      e.workflowId = getOriginalWorkflowId w ∧
      e.isTestRun = (getOriginalWorkflowId w == wid)) := by
  unfold startWorkflow at hrun
  rw [hw] at hrun
  cases simulate with
  | true =>
    simp only [if_true, eq_self_iff_true] at hrun ⊢
    cases hbr : (beforeRun maxErrors expirySeconds maxRuns t1 st
        (getOriginalWorkflowId w)).snd with
    | none =>
      rw [hbr] at hrun
      cases outcome <;> cases hrun <;>
        exact ⟨Or.inr rfl, rfl, fun hc => (nomatch hc)⟩
    | some reason =>
      cases reason with
      | tooManyErrors =>
        rw [hbr] at hrun
        cases hrun
        exact ⟨Or.inl rfl, rfl, fun hc => (nomatch hc)⟩
      | rateLimited =>
        rw [hbr] at hrun
        cases hrun
        exact ⟨Or.inr rfl, rfl, fun hc => (nomatch hc)⟩
  | false =>
    simp only [Bool.false_eq_true, if_false] at hrun ⊢
    cases hbr : (beforeRun maxErrors expirySeconds maxRuns t1
        { st with history := st.history ++
          [createWorkflowHistory (getOriginalWorkflowId w) t1
            (getOriginalWorkflowId w == wid)] }
        (getOriginalWorkflowId w)).snd with
    | none =>
      rw [hbr] at hrun
      cases outcome with
      | success =>
        cases hrun
        refine ⟨Or.inr rfl, rfl, fun _ =>
          ⟨{ workflowId := getOriginalWorkflowId w, startedOn := t1,
             completedOn := some t2, status := HistoryStatus.success,
             message := "",
             isTestRun := (getOriginalWorkflowId w == wid) }, ?_, rfl, rfl⟩⟩
        rw [beforeRun_fst_history]
        dsimp only
        rw [updateLast_append]
        rfl
      | dispatchError m =>
        cases hrun
        refine ⟨Or.inr rfl, rfl, fun _ =>
          ⟨{ workflowId := getOriginalWorkflowId w, startedOn := t1,
             completedOn := some t2, status := HistoryStatus.error,
             message := m,
             isTestRun := (getOriginalWorkflowId w == wid) }, ?_, rfl, rfl⟩⟩
        rw [beforeRun_fst_history]
        dsimp only
        rw [updateLast_append]
        rfl
      | unexpectedError m =>
        cases hrun
        refine ⟨Or.inr rfl, rfl, fun _ =>
          ⟨{ workflowId := getOriginalWorkflowId w, startedOn := t1,
             completedOn := some t2, status := HistoryStatus.error,
             message := "Unexpected error while running workflow. Error: " ++ m,
             isTestRun := (getOriginalWorkflowId w == wid) }, ?_, rfl, rfl⟩⟩
        rw [beforeRun_fst_history]
        dsimp only
        rw [updateLast_append]
        rfl
    | some reason =>
      cases reason with
      | tooManyErrors =>
        rw [hbr] at hrun
        cases hrun
        refine ⟨Or.inl rfl, rfl, fun _ =>
          ⟨{ workflowId := getOriginalWorkflowId w, startedOn := t1,
             completedOn := some t2, status := HistoryStatus.disabled,
             message := "The workflow was disabled due to too many consecutive errors.",
             isTestRun := (getOriginalWorkflowId w == wid) }, ?_, rfl, rfl⟩⟩
        rw [beforeRun_fst_history]
        dsimp only
        rw [updateLast_append]
        rfl
      | rateLimited =>
        rw [hbr] at hrun
        cases hrun
        refine ⟨Or.inr rfl, rfl, fun _ =>
          ⟨{ workflowId := getOriginalWorkflowId w, startedOn := t1,
             completedOn := some t2, status := HistoryStatus.error,
             message := "The workflow was rate limited due to too many recent runs.",
             isTestRun := (getOriginalWorkflowId w == wid) }, ?_, rfl, rfl⟩⟩
        rw [beforeRun_fst_history]
        dsimp only
        rw [updateLast_append]
        rfl

theorem temp_flags_after (ws : List Workflow) (origId : Nat)
    (w x : Workflow)
    (hx : x ∈ disableWorkflow (ws.map (fun y =>
        if y.id == origId then resetWorkflowTemporaryStates y else y)) w ∨
      x ∈ ws.map (fun y =>
        if y.id == origId then resetWorkflowTemporaryStates y else y)) :
    ∃ y ∈ ws, y.id = x.id ∧
      (x.id ≠ origId → x.allowTestRunUntil = y.allowTestRunUntil ∧
        x.simulateUntilNodeId = y.simulateUntilNodeId) ∧
      (x.id = origId → x.allowTestRunUntil = none ∧
        x.simulateUntilNodeId = none) := by
  have key : ∀ (y : Workflow),
      x = (fun z => if (z.id == w.id ||
          z.id == getOriginalWorkflowId w) = true then
          { z with state := WorkflowState.disabled } else z)
        ((fun y => if y.id == origId then
          resetWorkflowTemporaryStates y else y) y) ∨
      x = (fun y => if y.id == origId then
          resetWorkflowTemporaryStates y else y) y →
      y.id = x.id ∧
      (x.id ≠ origId → x.allowTestRunUntil = y.allowTestRunUntil ∧
        x.simulateUntilNodeId = y.simulateUntilNodeId) ∧
      (x.id = origId → x.allowTestRunUntil = none ∧
        x.simulateUntilNodeId = none) := by
    intro y hy
    by_cases hyo : y.id = origId
    · rcases hy with rfl | rfl <;>
        simp [resetWorkflowTemporaryStates, hyo] <;>
        split <;> simp [resetWorkflowTemporaryStates]
    · rcases hy with rfl | rfl <;>
        simp [resetWorkflowTemporaryStates, hyo] <;>
        split <;> simp [hyo]
  rcases hx with hx | hx
  · unfold disableWorkflow at hx
    rcases List.mem_map.mp hx with ⟨z, hz, rfl⟩
    rcases List.mem_map.mp hz with ⟨y, hy, rfl⟩
    exact ⟨y, hy, key y (Or.inl rfl)⟩
  · rcases List.mem_map.mp hx with ⟨y, hy, rfl⟩
    exact ⟨y, hy, key y (Or.inr rfl)⟩

/-- C10: `startWorkflow` keys every admission artefact to the original
workflow resolved from the executing one: the history entry a
non-simulated run appends carries the original workflow's id and is a
test run exactly when the executing workflow is a draft (id differing
from the original's); rate windows of every other workflow id are
untouched; every workflow whose id is not the original's keeps its
temporary flags, and any workflow carrying the original's id has its
temporary flags cleared. -/
theorem admission_keyed_to_original
    (maxErrors expirySeconds maxRuns : Nat)
    (st : EngineState) (wid : Nat) (w : Workflow) (simulate : Bool)
    (outcome : DispatchOutcome) (t1 t2 : Int) (st' : EngineState)
    (hw : findWorkflow st.workflows wid = some w)
    (hrun : startWorkflow maxErrors expirySeconds maxRuns st wid simulate
      outcome t1 t2 = some st') :
    (simulate = false → ∃ e, st'.history = st.history ++ [e] ∧
      e.workflowId = getOriginalWorkflowId w ∧
      (e.isTestRun = true ↔ getOriginalWorkflowId w = wid)) ∧
    (∀ k, k ≠ getOriginalWorkflowId w →
      getRateWindow st'.rateWindows k = getRateWindow st.rateWindows k) ∧
    (∀ x ∈ st'.workflows, x.id ≠ getOriginalWorkflowId w →
      ∃ y ∈ st.workflows, y.id = x.id ∧
        x.allowTestRunUntil = y.allowTestRunUntil ∧
        x.simulateUntilNodeId = y.simulateUntilNodeId) ∧
    (∀ x ∈ st'.workflows, x.id = getOriginalWorkflowId w →
      x.allowTestRunUntil = none ∧ x.simulateUntilNodeId = none) := by
  obtain ⟨hwf, hwin, hhist⟩ :=
    startWorkflow_shape maxErrors expirySeconds maxRuns st wid w simulate
      outcome t1 t2 st' hw hrun
  have hst0w : (if simulate = true then st else
      { st with history := st.history ++
        [createWorkflowHistory (getOriginalWorkflowId w) t1
          (getOriginalWorkflowId w == wid)] }).workflows =
      st.workflows := by
    cases simulate <;> rfl
  have hst0r : (if simulate = true then st else
      { st with history := st.history ++
        [createWorkflowHistory (getOriginalWorkflowId w) t1
          (getOriginalWorkflowId w == wid)] }).rateWindows =
      st.rateWindows := by
    cases simulate <;> rfl
  have hmem : ∀ x ∈ st'.workflows, ∃ y ∈ st.workflows, y.id = x.id ∧
      (x.id ≠ getOriginalWorkflowId w →
        x.allowTestRunUntil = y.allowTestRunUntil ∧
        x.simulateUntilNodeId = y.simulateUntilNodeId) ∧
      (x.id = getOriginalWorkflowId w → x.allowTestRunUntil = none ∧
        x.simulateUntilNodeId = none) := by
    intro x hx
    rcases hwf with h | h <;> rw [beforeRun_fst_workflows, hst0w] at h
    · exact temp_flags_after st.workflows (getOriginalWorkflowId w) w x
        (Or.inl (h ▸ hx))
    · exact temp_flags_after st.workflows (getOriginalWorkflowId w) w x
        (Or.inr (h ▸ hx))
  refine ⟨?_, ?_, ?_, ?_⟩
  · intro hsim
    obtain ⟨e, he, hid, htr⟩ := hhist hsim
    refine ⟨e, he, hid, ?_⟩
    rw [htr]
    exact beq_iff_eq
  · intro k hk
    rw [hwin, beforeRun_rateWindows_ne maxErrors expirySeconds maxRuns t1 _
      (getOriginalWorkflowId w) k hk, hst0r]
  · intro x hx hxid
    obtain ⟨y, hy, hid, hA, _⟩ := hmem x hx
    exact ⟨y, hy, hid, (hA hxid).1, (hA hxid).2⟩
  · intro x hx hxid
    obtain ⟨y, hy, hid, _, hB⟩ := hmem x hx
    exact hB hxid


/-- C4 witness: in a three-node workflow, moving node 3 behind the
trigger relinks node 2 — previously the trigger's default-branch
successor — behind node 3 with an empty output key. -/
theorem move_destination_relink_witness :
    ∃ d, moveNode
        [{ id := 1, prev := none, out := "", order := 0, isTrigger := true },
         { id := 2, prev := some 1, out := "", order := 1,
           isTrigger := false },
         { id := 3, prev := some 1, out := "", order := 2,
           isTrigger := false }] 3 1 none none = some d ∧
      getNode d 2 = some { id := 2, prev := some 3, out := "", order := 1,
                           isTrigger := false } :=
  move_destination_relink
    [{ id := 1, prev := none, out := "", order := 0, isTrigger := true },
     { id := 2, prev := some 1, out := "", order := 1, isTrigger := false },
     { id := 3, prev := some 1, out := "", order := 2, isTrigger := false }]
    3 1 none none
    { id := 3, prev := some 1, out := "", order := 2, isTrigger := false }
    { id := 1, prev := none, out := "", order := 0, isTrigger := true }
    { id := 2, prev := some 1, out := "", order := 1, isTrigger := false }
    (by decide) rfl rfl (by decide) (by decide) (by decide) rfl rfl

/-- C3 witness: inserting node 5 before node 2 splices it between the
trigger and node 2, inheriting node 2's branch key "x" while node 2's
own key is cleared. -/
theorem create_before_splice_witness :
    ∃ d, createNode
        [{ id := 1, prev := none, out := "", order := 0, isTrigger := true },
         { id := 2, prev := some 1, out := "x", order := 1,
           isTrigger := false }] 5 (some 2) = some d ∧
      getNode d 5 = some { id := 5, prev := some 1, out := "x",
                           order := getUniqueOrderBeforeNode
                             { id := 2, prev := some 1, out := "x",
                               order := 1, isTrigger := false },
                           isTrigger := false } ∧
      getNode d 2 = some { id := 2, prev := some 5, out := "", order := 1,
                           isTrigger := false } ∧
      ∀ n ∈ ([{ id := 1, prev := none, out := "", order := 0,
                isTrigger := true },
              { id := 2, prev := some 1, out := "x", order := 1,
                isTrigger := false }] : NodeDb),
        n.prev = some 1 → n.out = "x" →
        (getNode d n.id).map (fun m => m.prev) = some (some 5) :=
  create_before_splice
    [{ id := 1, prev := none, out := "", order := 0, isTrigger := true },
     { id := 2, prev := some 1, out := "x", order := 1, isTrigger := false }]
    5 2 1
    { id := 2, prev := some 1, out := "x", order := 1, isTrigger := false }
    (by decide) (by decide) rfl rfl

/-- C5 witness: in a linear four-node workflow whose branch keys are
all empty, moving node 2 behind node 4 and then back behind the
trigger restores every node's predecessor/branch pair. -/
theorem move_round_trip_amended_witness :
    ∃ d1 d2, moveNode
        [{ id := 1, prev := none, out := "", order := 0, isTrigger := true },
         { id := 2, prev := some 1, out := "", order := 1,
           isTrigger := false },
         { id := 3, prev := some 2, out := "", order := 2,
           isTrigger := false },
         { id := 4, prev := some 3, out := "", order := 3,
           isTrigger := false }] 2 4 (some "") none = some d1 ∧
      moveNode d1 2 1 (some "") none = some d2 ∧
      ∀ n ∈ ([{ id := 1, prev := none, out := "", order := 0,
                isTrigger := true },
              { id := 2, prev := some 1, out := "", order := 1,
                isTrigger := false },
              { id := 3, prev := some 2, out := "", order := 2,
                isTrigger := false },
              { id := 4, prev := some 3, out := "", order := 3,
                isTrigger := false }] : NodeDb),
        ∃ m, getNode d2 n.id = some m ∧ m.prev = n.prev ∧ m.out = n.out :=
  move_round_trip_amended
    [{ id := 1, prev := none, out := "", order := 0, isTrigger := true },
     { id := 2, prev := some 1, out := "", order := 1, isTrigger := false },
     { id := 3, prev := some 2, out := "", order := 2, isTrigger := false },
     { id := 4, prev := some 3, out := "", order := 3, isTrigger := false }]
    2 4 1 ""
    { id := 2, prev := some 1, out := "", order := 1, isTrigger := false }
    { id := 4, prev := some 3, out := "", order := 3, isTrigger := false }
    { id := 1, prev := none, out := "", order := 0, isTrigger := true }
    (by decide) rfl rfl rfl rfl (by decide) (by decide) (by decide)
    (by decide) (by decide)

/-- C6 witness: duplicating node 2 appends copy 7 last in order behind
node 2, relinks node 2's empty-branch successor (node 3) to the copy,
and leaves the named-branch successor (node 4, branch "a") alone. -/
theorem duplicate_default_branch_relink_witness :
    ∃ d, duplicateNode
        [{ id := 1, prev := none, out := "", order := 0, isTrigger := true },
         { id := 2, prev := some 1, out := "", order := 1,
           isTrigger := false },
         { id := 3, prev := some 2, out := "", order := 2,
           isTrigger := false },
         { id := 4, prev := some 2, out := "a", order := 3,
           isTrigger := false }] 2 7 = some d ∧
      getNode d 7 = some { id := 7, prev := some 2, out := "",
                           order := getLastOrder
                             [{ id := 1, prev := none, out := "",
                                order := 0, isTrigger := true },
                              { id := 2, prev := some 1, out := "",
                                order := 1, isTrigger := false },
                              { id := 3, prev := some 2, out := "",
                                order := 2, isTrigger := false },
                              { id := 4, prev := some 2, out := "a",
                                order := 3, isTrigger := false }],
                           isTrigger := false } ∧
      (∀ n ∈ ([{ id := 1, prev := none, out := "", order := 0,
                 isTrigger := true },
               { id := 2, prev := some 1, out := "", order := 1,
                 isTrigger := false },
               { id := 3, prev := some 2, out := "", order := 2,
                 isTrigger := false },
               { id := 4, prev := some 2, out := "a", order := 3,
                 isTrigger := false }] : NodeDb),
        n.order < getLastOrder
          [{ id := 1, prev := none, out := "", order := 0,
             isTrigger := true },
           { id := 2, prev := some 1, out := "", order := 1,
             isTrigger := false },
           { id := 3, prev := some 2, out := "", order := 2,
             isTrigger := false },
           { id := 4, prev := some 2, out := "a", order := 3,
             isTrigger := false }]) ∧
      (∀ n ∈ ([{ id := 1, prev := none, out := "", order := 0,
                 isTrigger := true },
               { id := 2, prev := some 1, out := "", order := 1,
                 isTrigger := false },
               { id := 3, prev := some 2, out := "", order := 2,
                 isTrigger := false },
               { id := 4, prev := some 2, out := "a", order := 3,
                 isTrigger := false }] : NodeDb),
        n.prev = some 2 → n.out = "" →
        getNode d n.id = some { n with prev := some 7 }) ∧
      (∀ n ∈ ([{ id := 1, prev := none, out := "", order := 0,
                 isTrigger := true },
               { id := 2, prev := some 1, out := "", order := 1,
                 isTrigger := false },
               { id := 3, prev := some 2, out := "", order := 2,
                 isTrigger := false },
               { id := 4, prev := some 2, out := "a", order := 3,
                 isTrigger := false }] : NodeDb),
        ¬(n.prev = some 2 ∧ n.out = "") → getNode d n.id = some n) :=
  duplicate_default_branch_relink
    [{ id := 1, prev := none, out := "", order := 0, isTrigger := true },
     { id := 2, prev := some 1, out := "", order := 1, isTrigger := false },
     { id := 3, prev := some 2, out := "", order := 2, isTrigger := false },
     { id := 4, prev := some 2, out := "a", order := 3, isTrigger := false }]
    2 7
    { id := 2, prev := some 1, out := "", order := 1, isTrigger := false }
    (by decide) (by decide) rfl

/-- C7 witness: with `simulate_until_node` set to node 2, dispatching
from trigger 1 visits nodes 1 and 2, never node 3, and records node
2's sample. -/
theorem simulate_until_halts_recursion_witness :
    dispatchNode 3
      [{ id := 1, prev := none, out := "", order := 0, isTrigger := true },
       { id := 2, prev := some 1, out := "", order := 1,
         isTrigger := false },
       { id := 3, prev := some 2, out := "", order := 2,
         isTrigger := false }] (some 2) (fun _ => "") 1 = [1, 2] ∧
    3 ∉ dispatchNode 3
      [{ id := 1, prev := none, out := "", order := 0, isTrigger := true },
       { id := 2, prev := some 1, out := "", order := 1,
         isTrigger := false },
       { id := 3, prev := some 2, out := "", order := 2,
         isTrigger := false }] (some 2) (fun _ => "") 1 ∧
    (2, "") ∈ dispatchSamples 3
      [{ id := 1, prev := none, out := "", order := 0, isTrigger := true },
       { id := 2, prev := some 1, out := "", order := 1,
         isTrigger := false },
       { id := 3, prev := some 2, out := "", order := 2,
         isTrigger := false }] (some 2) (fun _ => "") 1 :=
  simulate_until_halts_recursion
    { id := 1, prev := none, out := "", order := 0, isTrigger := true }
    { id := 2, prev := some 1, out := "", order := 1, isTrigger := false }
    { id := 3, prev := some 2, out := "", order := 2, isTrigger := false }
    (fun _ => "") rfl rfl rfl rfl rfl (by decide) (by decide) (by decide)

/-- C1 witness: a live workflow whose three most recent history
entries are all errors is denied by the circuit breaker and disabled
by a concrete `startWorkflow` run. -/
theorem circuit_breaker_amended_witness :
    (∀ (n : Nat) (statuses : List HistoryStatus),
      checkTooManyErrors n statuses =
        specCircuitBreakerDeniesAmended n statuses) ∧
    (checkTooManyErrors 3 (HistoryStatus.started ::
        historyStatusesDesc
          [{ workflowId := 1, startedOn := 0, completedOn := some 0,
             status := HistoryStatus.error, message := "",
             isTestRun := true },
           { workflowId := 1, startedOn := 1, completedOn := some 1,
             status := HistoryStatus.error, message := "",
             isTestRun := true },
           { workflowId := 1, startedOn := 2, completedOn := some 2,
             status := HistoryStatus.error, message := "",
             isTestRun := true }] 1) = true →
      ∀ x ∈ ([{ id := 1, state := WorkflowState.disabled,
                allowTestRunUntil := none, simulateUntilNodeId := none,
                publishedFromId := none }] : List Workflow),
        x.id = 1 ∨ x.id = 1 → x.state = WorkflowState.disabled) :=
  circuit_breaker_amended 3 60 5
    { workflows := [{ id := 1, state := WorkflowState.live,
                      allowTestRunUntil := none,
                      simulateUntilNodeId := none,
                      publishedFromId := none }],
      history := [{ workflowId := 1, startedOn := 0, completedOn := some 0,
                    status := HistoryStatus.error, message := "",
                    isTestRun := true },
                  { workflowId := 1, startedOn := 1, completedOn := some 1,
                    status := HistoryStatus.error, message := "",
                    isTestRun := true },
                  { workflowId := 1, startedOn := 2, completedOn := some 2,
                    status := HistoryStatus.error, message := "",
                    isTestRun := true }],
      rateWindows := fun _ => [] }
    1
    { id := 1, state := WorkflowState.live, allowTestRunUntil := none,
      simulateUntilNodeId := none, publishedFromId := none }
    DispatchOutcome.success 3 4
    { workflows := [{ id := 1, state := WorkflowState.disabled,
                      allowTestRunUntil := none,
                      simulateUntilNodeId := none,
                      publishedFromId := none }],
      history := [{ workflowId := 1, startedOn := 0, completedOn := some 0,
                    status := HistoryStatus.error, message := "",
                    isTestRun := true },
                  { workflowId := 1, startedOn := 1, completedOn := some 1,
                    status := HistoryStatus.error, message := "",
                    isTestRun := true },
                  { workflowId := 1, startedOn := 2, completedOn := some 2,
                    status := HistoryStatus.error, message := "",
                    isTestRun := true },
                  { workflowId := 1, startedOn := 3, completedOn := some 4,
                    status := HistoryStatus.disabled,
                    message := "The workflow was disabled due to too many consecutive errors.",
                    isTestRun := true }],
      rateWindows := fun _ => [] }
    rfl (by decide) rfl

/-- C8 witness: a concrete successful non-simulated run appends one
history entry on the original workflow, opened at the start time and
closed with a completion time and status Success. -/
theorem history_entry_always_closed_witness :
    ((false = true) →
      ([{ workflowId := 1, startedOn := 0, completedOn := some 1,
          status := HistoryStatus.success, message := "",
          isTestRun := true }] : List HistoryEntry) = []) ∧
    ((false = false) → ∃ e,
      ([{ workflowId := 1, startedOn := 0, completedOn := some 1,
          status := HistoryStatus.success, message := "",
          isTestRun := true }] : List HistoryEntry) = [] ++ [e] ∧
      e.workflowId = 1 ∧ e.startedOn = 0 ∧ e.completedOn = some 1 ∧
      (e.status = HistoryStatus.success ∨ e.status = HistoryStatus.error ∨
        e.status = HistoryStatus.disabled) ∧
      (e.status = HistoryStatus.disabled ↔
        checkTooManyErrors 3 (HistoryStatus.started ::
          historyStatusesDesc [] 1) = true)) :=
  history_entry_always_closed 3 60 5
    { workflows := [{ id := 1, state := WorkflowState.live,
                      allowTestRunUntil := none,
                      simulateUntilNodeId := none,
                      publishedFromId := none }],
      history := [], rateWindows := fun _ => [] }
    1
    { id := 1, state := WorkflowState.live, allowTestRunUntil := none,
      simulateUntilNodeId := none, publishedFromId := none }
    false DispatchOutcome.success 0 1
    { workflows := [{ id := 1, state := WorkflowState.live,
                      allowTestRunUntil := none,
                      simulateUntilNodeId := none,
                      publishedFromId := none }],
      history := [{ workflowId := 1, startedOn := 0, completedOn := some 1,
                    status := HistoryStatus.success, message := "",
                    isTestRun := true }],
      rateWindows := fun k => if k == 1 then [0] else [] }
    rfl (by decide) rfl

/-- C10 witness: in a concrete successful run of a draft's published
copy's original (here the workflow itself), the appended entry is
keyed to workflow 1 and marked a test run, other workflows' rate
windows are untouched, and workflow 1's temporary flags end cleared. -/
theorem admission_keyed_to_original_witness :
    ((false = false) → ∃ e,
      ([{ workflowId := 1, startedOn := 0, completedOn := some 1,
          status := HistoryStatus.success, message := "",
          isTestRun := true }] : List HistoryEntry) = [] ++ [e] ∧
      e.workflowId = 1 ∧ (e.isTestRun = true ↔ 1 = 1)) ∧
    (∀ k, k ≠ 1 →
      getRateWindow (fun k => if k == 1 then [0] else []) k =
        getRateWindow (fun _ => []) k) ∧
    (∀ x ∈ ([{ id := 1, state := WorkflowState.live,
               allowTestRunUntil := none, simulateUntilNodeId := none,
               publishedFromId := none }] : List Workflow),
      x.id ≠ 1 →
      ∃ y ∈ ([{ id := 1, state := WorkflowState.live,
                allowTestRunUntil := none, simulateUntilNodeId := none,
                publishedFromId := none }] : List Workflow),
        y.id = x.id ∧ x.allowTestRunUntil = y.allowTestRunUntil ∧
        x.simulateUntilNodeId = y.simulateUntilNodeId) ∧
    (∀ x ∈ ([{ id := 1, state := WorkflowState.live,
               allowTestRunUntil := none, simulateUntilNodeId := none,
               publishedFromId := none }] : List Workflow),
      x.id = 1 →
      x.allowTestRunUntil = none ∧ x.simulateUntilNodeId = none) :=
  admission_keyed_to_original 3 60 5
    { workflows := [{ id := 1, state := WorkflowState.live,
                      allowTestRunUntil := none,
                      simulateUntilNodeId := none,
                      publishedFromId := none }],
      history := [], rateWindows := fun _ => [] }
    1
    { id := 1, state := WorkflowState.live, allowTestRunUntil := none,
      simulateUntilNodeId := none, publishedFromId := none }
    false DispatchOutcome.success 0 1
    { workflows := [{ id := 1, state := WorkflowState.live,
                      allowTestRunUntil := none,
                      simulateUntilNodeId := none,
                      publishedFromId := none }],
      history := [{ workflowId := 1, startedOn := 0, completedOn := some 1,
                    status := HistoryStatus.success, message := "",
                    isTestRun := true }],
      rateWindows := fun k => if k == 1 then [0] else [] }
    rfl rfl

end Automation
